import Mathlib

/-!
Verification of the agent-orchestration layer of `src/main.py`: the keyword
guardrail (`homework_guardrail`), the Ollama bootstrap
(`start_ollama_if_needed`), and the triage routing configuration
(`triage_agent`).  Python strings are modelled as Lean `String`; Python
`k in s` membership is modelled as substring occurrence on the underlying
character lists; `str.lower()` is modelled as per-character ASCII
lower-casing, which agrees with Python on all inputs relevant here since the
trigger phrases are ASCII.
-/

/-- Occurrence of `needle` as a leading segment of `haystack`
(`haystack.startswith(needle)` in Python terms), on character lists. -/
def listStartsWith : List Char → List Char → Bool
  | [], _ => true
  | _ :: _, [] => false
  | n :: ns, h :: hs => n == h && listStartsWith ns hs

/-- Occurrence of `needle` as a contiguous substring of `haystack`:
the Python membership test `needle in haystack` on strings. -/
def occursIn (needle : List Char) : List Char → Bool
  | [] => listStartsWith needle []
  | h :: hs => listStartsWith needle (h :: hs) || occursIn needle hs

/-- Propositional form of substring occurrence: `haystack` splits as
`pre ++ needle ++ post`. -/
def OccursIn (needle haystack : List Char) : Prop :=
  ∃ pre post, haystack = pre ++ needle ++ post

/-- Python string membership `needle in haystack`, lifted to `String`. -/
def strContains (haystack needle : String) : Bool :=
  occursIn needle.data haystack.data

/-- ASCII lower-casing of one character, as Python `str.lower()` acts on the
ASCII range. -/
def pyLowerChar (c : Char) : Char :=
  if 'A' ≤ c ∧ c ≤ 'Z' then Char.ofNat (c.toNat + 32) else c

/-- Python `text.lower()` (restricted to its ASCII action, which is all the
guardrail's trigger phrases exercise). -/
def pyLower (s : String) : String :=
  ⟨s.data.map pyLowerChar⟩

/-- The `HomeworkOutput` pydantic model of `src/main.py`. -/
structure HomeworkOutput where
  is_homework : Bool
  reasoning : String
  deriving DecidableEq, Repr

/-- The `GuardrailFunctionOutput` value returned by the guardrail function:
the structured classification plus the tripwire flag. -/
structure GuardrailFunctionOutput where
  output_info : HomeworkOutput
  tripwire_triggered : Bool
  deriving DecidableEq, Repr

/-- The fixed ordered keyword list of `homework_guardrail` in `src/main.py`. -/
def keywords : List String :=
  ["homework", "assignment", "problem set", "pset", "quiz", "exam",
   "worksheet", "take-home", "due", "question 1", "q1"]

/-- The body of `homework_guardrail` applied to the text it extracts from its
input: lower-case, match keywords, build the reasoning string, and return the
verdict with `tripwire_triggered = final_output.is_homework`. -/
def homework_guardrail_text (text : String) : GuardrailFunctionOutput :=
  let lower := pyLower text
  let is_hw := keywords.any (fun k => strContains lower k)
  let reasoning :=
    if is_hw then
      "keyword match: " ++ String.intercalate ", "
        (keywords.filter (fun k => strContains lower k))
    else "no homework-related keywords detected"
  let final_output : HomeworkOutput := ⟨is_hw, reasoning⟩
  ⟨final_output, final_output.is_homework⟩

/-- The dynamically-typed `input_data` argument of `homework_guardrail`:
either a Python `str`, or a non-string value carried together with its
`str(...)` rendering. -/
inductive InputData where
  | ofString (s : String)
  | nonString (strRepr : String)
  deriving DecidableEq, Repr

/-- The string `homework_guardrail` evaluates:
`input_data if isinstance(input_data, str) else str(input_data)`. -/
def inputText : InputData → String
  | .ofString s => s
  | .nonString r => r

/-- `homework_guardrail` of `src/main.py`, including the
`isinstance(input_data, str)` coercion branch. -/
def homework_guardrail (input_data : InputData) : GuardrailFunctionOutput :=
  let text :=
    match input_data with
    | .ofString s => s
    | .nonString r => r
  let lower := pyLower text
  let is_hw := keywords.any (fun k => strContains lower k)
  let reasoning :=
    if is_hw then
      "keyword match: " ++ String.intercalate ", "
        (keywords.filter (fun k => strContains lower k))
    else "no homework-related keywords detected"
  let final_output : HomeworkOutput := ⟨is_hw, reasoning⟩
  ⟨final_output, final_output.is_homework⟩

/-- Environment oracle for the bootstrap of `src/main.py`: the outcome of the
i-th TCP probe (`_is_port_open`), the status of the i-th HTTP request to
`/api/tags` (`none` models the request raising), and whether the `ollama`
binary is found in `PATH` when `subprocess.Popen` runs. -/
structure BootEnv where
  portOpen : Nat → Bool
  healthResp : Nat → Option Nat
  execFound : Bool

/-- The `_ollama_ready` check of `src/main.py` at probe index `i`: the
request succeeds with an HTTP status in [200, 300). -/
def ollama_ready (e : BootEnv) (i : Nat) : Bool :=
  match e.healthResp i with
  | some status => decide (200 ≤ status) && decide (status < 300)
  | none => false

/-- The combined readiness test `_is_port_open(host, port) and
_ollama_ready(base)` at probe index `i`. -/
def readyCheck (e : BootEnv) (i : Nat) : Bool :=
  e.portOpen i && ollama_ready e i

/-- The error raised by `start_ollama_if_needed`: either the
`FileNotFoundError` branch around `subprocess.Popen`, or the post-loop
timeout. Both carry the literal message built by the source. -/
inductive BootError where
  | executableNotFound (msg : String)
  | timeout (msg : String)
  deriving DecidableEq, Repr

/-- Observable outcome of one run of `start_ollama_if_needed`: the returned
or raised value, the number of `ollama serve` processes spawned, and the
number of readiness checks performed inside the waiting loop. -/
structure BootOutcome where
  result : Except BootError Unit
  spawned : Nat
  loopPolls : Nat
  deriving Repr

/-- The waiting loop of `start_ollama_if_needed`, with wall-clock time
modelled in 0.5-second ticks (each failed iteration sleeps 0.5s): check
readiness at successive probe indices until ready or the tick budget runs
out, returning whether readiness was observed and how many checks ran. -/
def pollReady (e : BootEnv) : Nat → Nat → Bool × Nat
  | _, 0 => (false, 0)
  | i, n + 1 =>
    if readyCheck e i then (true, 1)
    else
      let rest := pollReady e (i + 1) n
      (rest.1, rest.2 + 1)

/-- The message of the `FileNotFoundError` branch of `src/main.py`. -/
def execNotFoundMsg : String :=
  "Could not start 'ollama serve': the 'ollama' binary was not found in PATH. Install Ollama or add it to your PATH."

/-- The timeout message of `src/main.py`, mentioning the base URL and the
wait budget. -/
def timeoutMsg (base : String) (wait_seconds : Nat) : String :=
  "Started 'ollama serve' but it did not become ready on " ++ base ++
    " within " ++ toString wait_seconds ++ "s."

/-- `start_ollama_if_needed` of `src/main.py`: fast path when the first
probe finds the server ready; otherwise spawn `ollama serve` (failing at once
when the executable is missing) and poll readiness every 0.5s until the
`wait_seconds` budget elapses. With 0.5-second ticks the budget allows
`2 * wait_seconds` loop iterations. -/
def start_ollama_if_needed (e : BootEnv) (host : String) (port : Nat)
    (wait_seconds : Nat) : BootOutcome :=
  let base := "http://" ++ host ++ ":" ++ toString port
  if readyCheck e 0 then
    { result := Except.ok (), spawned := 0, loopPolls := 0 }
  else if e.execFound then
    let poll := pollReady e 1 (2 * wait_seconds)
    if poll.1 then
      { result := Except.ok (), spawned := 1, loopPolls := poll.2 }
    else
      { result := Except.error (BootError.timeout (timeoutMsg base wait_seconds)),
        spawned := 1, loopPolls := poll.2 }
  else
    { result := Except.error (BootError.executableNotFound execNotFoundMsg),
      spawned := 0, loopPolls := 0 }

/-- An agent as configured in `src/main.py`: its name, its input guardrails
in declared order, and the names of its permitted handoff targets.
Instructions and model identifiers are opaque to the routing logic and
omitted. -/
structure AgentDef where
  name : String
  input_guardrails : List (InputData → GuardrailFunctionOutput)
  handoffs : List String

/-- `math_tutor_agent` of `src/main.py`. -/
def math_tutor_agent : AgentDef :=
  { name := "Math Tutor", input_guardrails := [], handoffs := [] }

/-- `history_tutor_agent` of `src/main.py`. -/
def history_tutor_agent : AgentDef :=
  { name := "History Tutor", input_guardrails := [], handoffs := [] }

/-- `local_tutor_agent` of `src/main.py`. -/
def local_tutor_agent : AgentDef :=
  { name := "Local Tutor", input_guardrails := [], handoffs := [] }

/-- `triage_agent` of `src/main.py`: guarded by `homework_guardrail`, with
handoffs to the three tutor agents in declared order. -/
def triage_agent : AgentDef :=
  { name := "Triage Agent",
    input_guardrails := [homework_guardrail],
    handoffs := ["History Tutor", "Math Tutor", "Local Tutor"] }

/-- The agents defined in `src/main.py` that take part in routing. -/
def agent_registry : List AgentDef :=
  [triage_agent, history_tutor_agent, math_tutor_agent, local_tutor_agent]

/-- Modelled from the spec: the backend's routing decision of §4.4 step 2 —
either a direct answer or a request to hand off to a named target. The
backend itself is an external collaborator, not code under `src/`. -/
inductive BackendReply where
  | answer (text : String)
  | handoff (target : String)
  deriving DecidableEq, Repr

/-- Modelled from the spec: the backend collaborator, as a function from the
current agent's name and the input text to its reply. -/
structure Backend where
  reply : String → String → BackendReply

/-- The error kinds of §4.4/§7 surfaced by the router. -/
inductive RouterError where
  | handoffCycle (agentName : String)
  | backendFailure (msg : String)
  deriving DecidableEq, Repr

/-- The outcome of a routed invocation: a final answer, a blocked-input
signal carrying the guardrail verdict, a router error, or fuel exhaustion of
the bounded chain. -/
inductive RouteOutcome where
  | ok (finalOutput : String)
  | blocked (verdict : GuardrailFunctionOutput)
  | err (e : RouterError)
  | exhausted
  deriving DecidableEq, Repr

/-- Modelled from the spec: step 1 of the `route` protocol of §4.4 — run the
entry agent's guardrails in declared order against the raw input and stop at
the first blocking verdict. The runner that executes this protocol lives in
the external `agents` SDK, not under `src/`. -/
def runGuardrails : List (InputData → GuardrailFunctionOutput) → InputData →
    Option GuardrailFunctionOutput
  | [], _ => none
  | g :: rest, d =>
    let v := g d
    if v.tripwire_triggered then some v else runGuardrails rest d

/-- Modelled from the spec: steps 2–4 of the `route` protocol of §4.4 — ask
the backend for a decision, follow at most boundedly many handoffs while
tracking the visited agents of the current chain, and fail with
`HandoffCycle` as soon as a previously visited agent is selected again.
Returns the outcome together with the number of backend calls made. -/
def routeChain (reg : List AgentDef) (b : Backend) (d : InputData) :
    Nat → AgentDef → List String → Nat → RouteOutcome × Nat
  | 0, _, _, calls => (RouteOutcome.exhausted, calls)
  | fuel + 1, current, visited, calls =>
    match b.reply current.name (inputText d) with
    | BackendReply.answer t => (RouteOutcome.ok t, calls + 1)
    | BackendReply.handoff target =>
      if visited.contains target then
        (RouteOutcome.err (RouterError.handoffCycle target), calls + 1)
      else if current.handoffs.contains target then
        match reg.find? (fun a => a.name == target) with
        | some next => routeChain reg b d fuel next (target :: visited) (calls + 1)
        | none => (RouteOutcome.err (RouterError.backendFailure target), calls + 1)
      else
        (RouteOutcome.err (RouterError.backendFailure target), calls + 1)

/-- Modelled from the spec: `route` of §4.4 — evaluate the entry agent's
guardrails first; on a blocking verdict stop at once with the blocked
outcome and zero backend calls, otherwise run the bounded handoff chain. -/
def route (reg : List AgentDef) (b : Backend) (entry : AgentDef) (d : InputData) :
    RouteOutcome × Nat :=
  match runGuardrails entry.input_guardrails d with
  | some v => (RouteOutcome.blocked v, 0)
  | none => routeChain reg b d (reg.length + 1) entry [entry.name] 0

/-- A backend that always answers directly. -/
def answerBackend : Backend :=
  { reply := fun _ _ => BackendReply.answer "ok" }

/-- A hypothetical registry with the cyclic handoff graph Entry→A→B→A of the
spec's cycle scenario. -/
def agentEntry : AgentDef :=
  { name := "Entry", input_guardrails := [], handoffs := ["A"] }

/-- Agent A of the cycle scenario, handing off to B. -/
def agentA : AgentDef :=
  { name := "A", input_guardrails := [], handoffs := ["B"] }

/-- Agent B of the cycle scenario, handing off back to A. -/
def agentB : AgentDef :=
  { name := "B", input_guardrails := [], handoffs := ["A"] }

/-- The registry of the cycle scenario. -/
def cyclicRegistry : List AgentDef :=
  [agentEntry, agentA, agentB]

/-- A backend that always requests the handoff closing the Entry→A→B→A
cycle. -/
def cyclicBackend : Backend :=
  { reply := fun agentName _ =>
      if agentName == "Entry" then BackendReply.handoff "A"
      else if agentName == "A" then BackendReply.handoff "B"
      else BackendReply.handoff "A" }

/-- Environment with a backend already listening and healthy. -/
def readyEnv : BootEnv :=
  { portOpen := fun _ => true, healthResp := fun _ => some 200, execFound := true }

/-- Environment with no listener and no launchable executable. -/
def deadEnv : BootEnv :=
  { portOpen := fun _ => false, healthResp := fun _ => none, execFound := false }

/-- Environment with no listener but a launchable executable that never comes
up. -/
def downEnv : BootEnv :=
  { portOpen := fun _ => false, healthResp := fun _ => none, execFound := true }

theorem listStartsWith_iff (n h : List Char) :
    listStartsWith n h = true ↔ ∃ rest, h = n ++ rest := by
  induction n generalizing h with
  | nil => simp [listStartsWith]
  | cons a as ih =>
    cases h with
    | nil => simp [listStartsWith]
    | cons b bs =>
      simp only [listStartsWith, Bool.and_eq_true, beq_iff_eq, ih]
      constructor
      · rintro ⟨rfl, rest, rfl⟩
        exact ⟨rest, rfl⟩
      · rintro ⟨rest, hEq⟩
        rw [List.cons_append] at hEq
        injection hEq with h1 h2
        exact ⟨h1.symm, rest, h2⟩

theorem occursIn_iff (n h : List Char) :
    occursIn n h = true ↔ OccursIn n h := by
  induction h with
  | nil =>
    simp only [occursIn, listStartsWith_iff, OccursIn]
    constructor
    · rintro ⟨rest, hEq⟩
      exact ⟨[], rest, by simpa using hEq⟩
    · rintro ⟨pre, post, hEq⟩
      exact ⟨post, by
        have := hEq.symm
        simp only [List.append_eq_nil] at this
        simp [this.1.2, this.2]⟩
  | cons b bs ih =>
    simp only [occursIn, Bool.or_eq_true, listStartsWith_iff, ih, OccursIn]
    constructor
    · rintro (⟨rest, hEq⟩ | ⟨pre, post, hEq⟩)
      · exact ⟨[], rest, by simpa using hEq⟩
      · exact ⟨b :: pre, post, by simp [hEq]⟩
    · rintro ⟨pre, post, hEq⟩
      cases pre with
      | nil =>
        left
        exact ⟨post, by simpa using hEq⟩
      | cons p ps =>
        right
        rw [List.cons_append, List.cons_append] at hEq
        injection hEq with h1 h2
        exact ⟨ps, post, h2⟩

theorem pollReady_true_iff (e : BootEnv) (n i : Nat) :
    (pollReady e i n).1 = true ↔
      ∃ j, i ≤ j ∧ j < i + n ∧ readyCheck e j = true := by
  induction n generalizing i with
  | zero =>
    simp only [pollReady]
    constructor
    · intro h
      exact absurd h (by simp)
    · rintro ⟨j, h1, h2, _⟩
      omega
  | succ n ih =>
    by_cases h : readyCheck e i = true
    · constructor
      · intro _
        exact ⟨i, Nat.le_refl i, by omega, h⟩
      · intro _
        simp [pollReady, h]
    · simp only [pollReady, h, if_false, Bool.false_eq_true, ih]
      constructor
      · rintro ⟨j, h1, h2, h3⟩
        exact ⟨j, by omega, by omega, h3⟩
      · rintro ⟨j, h1, h2, h3⟩
        rcases Nat.eq_or_lt_of_le h1 with rfl | hlt
        · exact absurd h3 h
        · exact ⟨j, hlt, by omega, h3⟩

theorem pollReady_polls_le (e : BootEnv) (n i : Nat) :
    (pollReady e i n).2 ≤ n := by
  induction n generalizing i with
  | zero => simp [pollReady]
  | succ n ih =>
    by_cases h : readyCheck e i = true
    · simp [pollReady, h]
    · simp only [pollReady, h, if_false, Bool.false_eq_true]
      exact Nat.succ_le_succ (ih (i + 1))

theorem pollReady_all_false (e : BootEnv) (n i : Nat)
    (h : ∀ j, i ≤ j → j < i + n → readyCheck e j = false) :
    pollReady e i n = (false, n) := by
  induction n generalizing i with
  | zero => simp [pollReady]
  | succ n ih =>
    have h0 : readyCheck e i = false := h i (Nat.le_refl i) (by omega)
    simp only [pollReady, h0, if_false, Bool.false_eq_true]
    rw [ih (i + 1) (fun j hj1 hj2 => h j (by omega) (by omega))]

/-- C5: readiness is the conjunction of the TCP probe succeeding and the
health endpoint answering with a 2xx status; when the very first probe is
ready, `start_ollama_if_needed` returns at once and spawns no process. -/
theorem ensureReady_fast_path (e : BootEnv) (host : String) (port wait_seconds : Nat)
    (hready : readyCheck e 0 = true) :
    start_ollama_if_needed e host port wait_seconds =
      { result := Except.ok (), spawned := 0, loopPolls := 0 }
  ∧ ∀ i, readyCheck e i = true ↔
      (e.portOpen i = true ∧ ∃ c, e.healthResp i = some c ∧ 200 ≤ c ∧ c < 300) := by
  constructor
  · simp [start_ollama_if_needed, hready]
  · intro i
    simp only [readyCheck, Bool.and_eq_true, ollama_ready]
    cases h : e.healthResp i with
    | none => simp
    | some c => simp [decide_eq_true_iff]

/-- Witness for C5: against an already-healthy backend, the bootstrap returns
success with zero spawned processes and zero loop polls. -/
theorem ensureReady_fast_path_witness :
    start_ollama_if_needed readyEnv "127.0.0.1" 11434 1 =
      { result := Except.ok (), spawned := 0, loopPolls := 0 } :=
  (ensureReady_fast_path readyEnv "127.0.0.1" 11434 1 (by decide)).1

/-- C6: when the first probe is not ready and the `ollama` binary is missing,
the bootstrap fails at once with the executable-not-found error, spawning
nothing and performing no polling-loop iteration. -/
theorem ensureReady_exec_not_found (e : BootEnv) (host : String) (port wait_seconds : Nat)
    (hnot : readyCheck e 0 = false) (hexec : e.execFound = false) :
    start_ollama_if_needed e host port wait_seconds =
      { result := Except.error (BootError.executableNotFound execNotFoundMsg),
        spawned := 0, loopPolls := 0 } := by
  simp [start_ollama_if_needed, hnot, hexec]

/-- Witness for C6 against a concrete dead environment. -/
theorem ensureReady_exec_not_found_witness :
    start_ollama_if_needed deadEnv "127.0.0.1" 11434 1 =
      { result := Except.error (BootError.executableNotFound execNotFoundMsg),
        spawned := 0, loopPolls := 0 } :=
  ensureReady_exec_not_found deadEnv "127.0.0.1" 11434 1 rfl rfl

/-- C7: after spawning, the bootstrap polls in 0.5-second ticks within the
`wait_seconds` budget; it returns success exactly when some in-budget check
passes, never polls past the budget, times out with the message naming the
wait budget and the target base URL when no in-budget check passes, and that
message contains the target address and the wait duration as substrings. -/
theorem ensureReady_poll_and_timeout (e : BootEnv) (host : String)
    (port wait_seconds : Nat)
    (hnot : readyCheck e 0 = false) (hexec : e.execFound = true) :
    ((start_ollama_if_needed e host port wait_seconds).result = Except.ok () ↔
        ∃ j, 1 ≤ j ∧ j ≤ 2 * wait_seconds ∧ readyCheck e j = true)
  ∧ (start_ollama_if_needed e host port wait_seconds).loopPolls ≤ 2 * wait_seconds
  ∧ ((∀ j, 1 ≤ j → j ≤ 2 * wait_seconds → readyCheck e j = false) →
        start_ollama_if_needed e host port wait_seconds =
          { result := Except.error (BootError.timeout
              (timeoutMsg ("http://" ++ host ++ ":" ++ toString port) wait_seconds)),
            spawned := 1, loopPolls := 2 * wait_seconds })
  ∧ OccursIn ("http://" ++ host ++ ":" ++ toString port).data
      (timeoutMsg ("http://" ++ host ++ ":" ++ toString port) wait_seconds).data
  ∧ OccursIn (toString wait_seconds).data
      (timeoutMsg ("http://" ++ host ++ ":" ++ toString port) wait_seconds).data := by
  refine ⟨?_, ?_, ?_, ?_, ?_⟩
  · constructor
    · intro hok
      by_cases hp : (pollReady e 1 (2 * wait_seconds)).1 = true
      · obtain ⟨j, h1, h2, h3⟩ := (pollReady_true_iff e (2 * wait_seconds) 1).mp hp
        exact ⟨j, h1, by omega, h3⟩
      · exfalso
        simp [start_ollama_if_needed, hnot, hexec, hp] at hok
    · rintro ⟨j, h1, h2, h3⟩
      have hp : (pollReady e 1 (2 * wait_seconds)).1 = true :=
        (pollReady_true_iff e (2 * wait_seconds) 1).mpr ⟨j, h1, by omega, h3⟩
      simp [start_ollama_if_needed, hnot, hexec, hp]
  · by_cases hp : (pollReady e 1 (2 * wait_seconds)).1 = true
    · simp only [start_ollama_if_needed, hnot, hexec, hp]
      simpa using pollReady_polls_le e (2 * wait_seconds) 1
    · simp only [start_ollama_if_needed, hnot, hexec, hp]
      simpa using pollReady_polls_le e (2 * wait_seconds) 1
  · intro hall
    have hpoll : pollReady e 1 (2 * wait_seconds) = (false, 2 * wait_seconds) :=
      pollReady_all_false e (2 * wait_seconds) 1
        (fun j hj1 hj2 => hall j hj1 (by omega))
    simp [start_ollama_if_needed, hnot, hexec, hpoll]
  · refine ⟨"Started 'ollama serve' but it did not become ready on ".data,
      (" within " ++ toString wait_seconds ++ "s.").data, ?_⟩
    simp [timeoutMsg, List.append_assoc]
  · refine ⟨("Started 'ollama serve' but it did not become ready on " ++
      ("http://" ++ host ++ ":" ++ toString port) ++ " within ").data,
      "s.".data, ?_⟩
    simp [timeoutMsg, List.append_assoc]

/-- Witness for C7: with a 1-second budget against a backend that never comes
up, the bootstrap runs its two in-budget polls and raises the timeout error
carrying the base URL and the budget. -/
theorem ensureReady_poll_and_timeout_witness :
    start_ollama_if_needed downEnv "127.0.0.1" 11434 1 =
      { result := Except.error (BootError.timeout
          (timeoutMsg "http://127.0.0.1:11434" 1)),
        spawned := 1, loopPolls := 2 } := by
  have h := (ensureReady_poll_and_timeout downEnv "127.0.0.1" 11434 1 rfl rfl).2.2.1
    (fun j _ _ => rfl)
  simpa using h

theorem keywords_match_iff (s : String) :
    keywords.any (fun k => strContains (pyLower s) k) = true ↔
      ∃ k ∈ keywords, OccursIn k.data (pyLower s).data := by
  simp only [List.any_eq_true, strContains, occursIn_iff]

/-- C1: the guardrail blocks exactly when at least one of the fixed ordered
trigger phrases occurs as a substring of the lower-cased input — plain
substring containment, no word-boundary or tokenization requirement. -/
theorem guardrail_blocked_iff_keyword_substring (s : String) :
    (homework_guardrail_text s).tripwire_triggered = true ↔
      ∃ k ∈ keywords, OccursIn k.data (pyLower s).data := by
  rw [← keywords_match_iff]
  rfl

/-- C3: if some trigger phrase matches, the reasoning records exactly the
matched phrases, comma-joined, filtered from the keyword list in its declared
order; if none matches, the verdict is not blocked and the reasoning is the
fixed "no match" string. -/
theorem guardrail_reasoning_exact (s : String) :
    ((∃ k ∈ keywords, OccursIn k.data (pyLower s).data) →
        (homework_guardrail_text s).output_info.reasoning =
          "keyword match: " ++ String.intercalate ", "
            (keywords.filter (fun k => strContains (pyLower s) k)))
  ∧ ((∀ k ∈ keywords, ¬ OccursIn k.data (pyLower s).data) →
        (homework_guardrail_text s).tripwire_triggered = false
        ∧ (homework_guardrail_text s).output_info.is_homework = false
        ∧ (homework_guardrail_text s).output_info.reasoning =
            "no homework-related keywords detected") := by
  constructor
  · intro hmatch
    have hb : keywords.any (fun k => strContains (pyLower s) k) = true :=
      (keywords_match_iff s).mpr hmatch
    simp [homework_guardrail_text, hb]
  · intro hnone
    have hb : keywords.any (fun k => strContains (pyLower s) k) = false := by
      rw [Bool.eq_false_iff]
      intro hcontra
      obtain ⟨k, hk, hocc⟩ := (keywords_match_iff s).mp hcontra
      exact hnone k hk hocc
    simp [homework_guardrail_text, hb]

/-- Witness for C3 at concrete inputs: a blocked input with its exact
reasoning string, and a clean input that is not blocked. -/
theorem guardrail_reasoning_exact_witness :
    (homework_guardrail_text "a quiz").output_info.reasoning = "keyword match: quiz"
  ∧ (homework_guardrail_text "hello").tripwire_triggered = false := by
  constructor
  · have h := (guardrail_reasoning_exact "a quiz").1
      ⟨"quiz", by decide, (occursIn_iff _ _).mp (by decide)⟩
    rw [h]
    decide
  · have hall : keywords.all
        (fun k => ! occursIn k.data (pyLower "hello").data) = true := by decide
    refine ((guardrail_reasoning_exact "hello").2 ?_).1
    intro k hk
    rw [← occursIn_iff]
    have hfalse := List.all_eq_true.mp hall k hk
    simp only [Bool.not_eq_true'] at hfalse
    simp [hfalse]

/-- C4: the scenario input is blocked and its reasoning contains both the
phrase "homework" and the phrase "question 1". -/
theorem guardrail_scenario_question1 :
    (homework_guardrail (InputData.ofString
        "Can you help me with question 1 of my homework?")).tripwire_triggered = true
  ∧ OccursIn "homework".data
      (homework_guardrail (InputData.ofString
        "Can you help me with question 1 of my homework?")).output_info.reasoning.data
  ∧ OccursIn "question 1".data
      (homework_guardrail (InputData.ofString
        "Can you help me with question 1 of my homework?")).output_info.reasoning.data :=
  ⟨by decide, (occursIn_iff _ _).mp (by decide), (occursIn_iff _ _).mp (by decide)⟩

/-- C9: the guardrail is a total function of its dynamically-typed input; a
non-string input is coerced to its `str(...)` rendering and then evaluated
under exactly the same keyword rules as a string input. -/
theorem guardrail_total_str_coercion (input_data : InputData) :
    homework_guardrail input_data = homework_guardrail_text (inputText input_data) := by
  cases input_data <;> rfl

/-- C10: every verdict is internally coherent: the tripwire flag equals the
`is_homework` field of the structured output. -/
theorem guardrail_tripwire_coherent (input_data : InputData) :
    (homework_guardrail input_data).tripwire_triggered =
      (homework_guardrail input_data).output_info.is_homework := by
  cases input_data <;> rfl

/-- C2: when the homework guardrail trips on the input, `route` on the triage
agent stops immediately — zero backend calls, no downstream agent invoked —
and returns the blocked outcome carrying that verdict. -/
theorem route_blocked_no_backend (reg : List AgentDef) (b : Backend) (d : InputData)
    (h : (homework_guardrail d).tripwire_triggered = true) :
    route reg b triage_agent d =
      (RouteOutcome.blocked (homework_guardrail d), 0) := by
  simp [route, triage_agent, runGuardrails, h]

/-- Witness for C2: the blocked scenario input yields the blocked outcome
with zero backend calls, even against a backend that would answer. -/
theorem route_blocked_no_backend_witness :
    route agent_registry answerBackend triage_agent
        (InputData.ofString "Can you help me with question 1 of my homework?") =
      (RouteOutcome.blocked (homework_guardrail (InputData.ofString
        "Can you help me with question 1 of my homework?")), 0) :=
  route_blocked_no_backend agent_registry answerBackend
    (InputData.ofString "Can you help me with question 1 of my homework?") (by decide)

/-- C8: whenever the backend selects a previously visited agent of the
current chain, the router fails with the handoff-cycle error after exactly
that one backend call, instead of recursing further. -/
theorem routeChain_handoff_cycle (reg : List AgentDef) (b : Backend) (d : InputData)
    (fuel : Nat) (current : AgentDef) (visited : List String) (calls : Nat)
    (target : String)
    (hrep : b.reply current.name (inputText d) = BackendReply.handoff target)
    (hvis : visited.contains target = true) :
    routeChain reg b d (fuel + 1) current visited calls =
      (RouteOutcome.err (RouterError.handoffCycle target), calls + 1) := by
  have hmem : target ∈ visited := by simpa using hvis
  simp [routeChain, hrep, hmem]

/-- Witness for C8: the full Entry→A→B→A scenario ends in the handoff-cycle
error after three backend calls. -/
theorem routeChain_handoff_cycle_witness :
    route cyclicRegistry cyclicBackend agentEntry (InputData.ofString "hi") =
      (RouteOutcome.err (RouterError.handoffCycle "A"), 3) := by
  have hstep := routeChain_handoff_cycle cyclicRegistry cyclicBackend
    (InputData.ofString "hi") 1 agentB ["B", "A", "Entry"] 2 "A" rfl rfl
  have hroute : route cyclicRegistry cyclicBackend agentEntry (InputData.ofString "hi") =
      routeChain cyclicRegistry cyclicBackend (InputData.ofString "hi") 2 agentB
        ["B", "A", "Entry"] 2 := by rfl
  rw [hroute, hstep]
